import Mathlib

/-!
Verification development for the jdaviz unit-conversion / valid-units code.

Shallow embedding of:
  * `jdaviz/core/validunits.py` — the equivalency-list builders
    (`create_spectral_equivalencies_list`, `create_flux_equivalencies_list`,
    `create_sb_equivalencies_list`), including their debug-file side effects
    and the `app.data_collection[0]` read;
  * `jdaviz/configs/specviz/plugins/unit_conversion/unit_conversion.py` —
    the `UnitConversion` plugin's glue callbacks and observers;
  * the Markers plugin's unit-recompute behaviour (modelled from the spec,
    as the plugin body is not part of the sources, only its test).

Astropy units are modelled as finitely-supported exponent maps over the
finitely many named base units that occur in the sources, kept in a
normalized sorted association-list form.  Astropy's `to_string` is modelled
by `toStr`; astropy's `find_equivalent_units` (an external library lookup)
is a parameter of each builder (`none` models `UnitConversionError`).
Python's `sorted` on strings is `List.insertionSort (· ≤ ·)`, and Python's
`set` subtraction is `dedup`/`filter`.
-/

/-- The named astropy units appearing in the embedded sources (one constructor
per distinct astropy unit; `micron` parses equal to `um` and is therefore the
same constructor). -/
inductive BaseU where
  | AA | AB | AU | Bq | Hz | Jy | MJy | ST | W | bol | cm | ct | eV | earthRad
  | erg | jupiterRad | lsec | lyr | m | mJy | nm | pc | ph | pix | s | solRad
  | sr | uJy | um
deriving DecidableEq, Repr

/-- A fixed enumeration index, used to keep exponent maps sorted. -/
def BaseU.idx : BaseU → Nat
  | .AA => 0
  | .AB => 1
  | .AU => 2
  | .Bq => 3
  | .Hz => 4
  | .Jy => 5
  | .MJy => 6
  | .ST => 7
  | .W => 8
  | .bol => 9
  | .cm => 10
  | .ct => 11
  | .eV => 12
  | .earthRad => 13
  | .erg => 14
  | .jupiterRad => 15
  | .lsec => 16
  | .lyr => 17
  | .m => 18
  | .mJy => 19
  | .nm => 20
  | .pc => 21
  | .ph => 22
  | .pix => 23
  | .s => 24
  | .solRad => 25
  | .sr => 26
  | .uJy => 27
  | .um => 28

/-- The readable name of each base unit, as astropy renders it. -/
def BaseU.name : BaseU → String
  | .AA => "Angstrom"
  | .AB => "AB"
  | .AU => "AU"
  | .Bq => "Bq"
  | .Hz => "Hz"
  | .Jy => "Jy"
  | .MJy => "MJy"
  | .ST => "ST"
  | .W => "W"
  | .bol => "bol"
  | .cm => "cm"
  | .ct => "ct"
  | .eV => "eV"
  | .earthRad => "earthRad"
  | .erg => "erg"
  | .jupiterRad => "jupiterRad"
  | .lsec => "lsec"
  | .lyr => "lyr"
  | .m => "m"
  | .mJy => "mJy"
  | .nm => "nm"
  | .pc => "pc"
  | .ph => "ph"
  | .pix => "pix"
  | .s => "s"
  | .solRad => "solRad"
  | .sr => "sr"
  | .uJy => "uJy"
  | .um => "um"

/-- An astropy unit: a normalized association list of bases with nonzero
integer exponents, sorted by `BaseU.idx`.  The empty list is
`u.dimensionless_unscaled`. -/
abbrev AUnit := List (BaseU × Int)

/-- Insert one base/exponent pair into a normalized exponent list. -/
def insB (b : BaseU) (e : Int) : AUnit → AUnit
  | [] => if e = 0 then [] else [(b, e)]
  | (c, f) :: rest =>
    if b = c then (if e + f = 0 then rest else (b, e + f) :: rest)
    else if b.idx < c.idx then (if e = 0 then (c, f) :: rest else (b, e) :: (c, f) :: rest)
    else (c, f) :: insB b e rest

/-- Normalize an arbitrary exponent list (fold every pair in). -/
def unorm (l : List (BaseU × Int)) : AUnit :=
  l.foldr (fun p acc => insB p.1 p.2 acc) []

/-- A single named unit. -/
def atom (b : BaseU) : AUnit := [(b, 1)]

/-- Product of two units (astropy `*`). -/
def uMul (a b : AUnit) : AUnit := unorm (a ++ b)

/-- Quotient of two units (astropy `/`). -/
def uDiv (a b : AUnit) : AUnit := unorm (a ++ b.map (fun p => (p.1, -p.2)))

/-- `u.sr`, the solid-angle unit. -/
def srU : AUnit := atom .sr

/-- Whether `u.sr` appears among the unit's bases (`u.sr in unit.bases`). -/
def hasSr (x : AUnit) : Bool := x.any (fun p => p.1 == BaseU.sr)

/-- Render the exponent of one base (astropy style: `cm`, `cm2`). -/
def powStr (b : BaseU) (e : Nat) : String :=
  if e = 1 then b.name else b.name ++ toString e

/-- Model of astropy `Unit.to_string()`: numerator factors, then `/` and the
denominator (parenthesized when it has several factors). -/
def toStr (x : AUnit) : String :=
  let num := x.filter (fun p => 0 < p.2)
  let den := x.filter (fun p => p.2 < 0)
  let rend := fun (l : List (BaseU × Int)) =>
    String.intercalate " " (l.map (fun p => powStr p.1 p.2.natAbs))
  match num, den with
  | [], [] => ""
  | _ :: _, [] => rend num
  | [], _ :: _ => "1 / " ++ (if den.length = 1 then rend den else "(" ++ rend den ++ ")")
  | _ :: _, _ :: _ => rend num ++ " / " ++ (if den.length = 1 then rend den else "(" ++ rend den ++ ")")

/-- `units_to_strings` from `validunits.py`. -/
def units_to_strings (unit_list : List AUnit) : List String := unit_list.map toStr

/-- Python `sorted` on a list of strings. -/
def sortStr (l : List String) : List String := List.insertionSort (· ≤ ·) l

/-- The locally defined spectral-axis units of `create_spectral_equivalencies_list`. -/
def spectralLocals : List AUnit :=
  [atom .AA, atom .nm, atom .um, atom .Hz, atom .erg]

/-- The default `exclude` list of `create_spectral_equivalencies_list`
(`u.micron` equals `u.um`). -/
def spectralExcludeDefault : List AUnit :=
  [atom .jupiterRad, atom .earthRad, atom .solRad, atom .lyr, atom .AU,
   atom .pc, atom .Bq, atom .um, atom .lsec]

/-- The library-discovered units minus local and excluded units
(`list(set(...) - set(local_units + exclude))`), before string rendering. -/
def spectralDiscFiltered (exclude : List AUnit) (eqs : List AUnit) : List AUnit :=
  eqs.dedup.filter (fun e => e ∉ spectralLocals ++ exclude)

/-- The non-degenerate return value of `create_spectral_equivalencies_list`. -/
def spectralListVal (exclude : List AUnit) (eqs : List AUnit) : List String :=
  sortStr (units_to_strings spectralLocals) ++
    sortStr (units_to_strings (spectralDiscFiltered exclude eqs))

/-- `create_spectral_equivalencies_list` from `validunits.py`.  `discovered`
is the result of `spectral_axis_unit.find_equivalent_units(u.spectral())`;
`none` models the caught `UnitConversionError`. -/
def create_spectral_equivalencies_list (saU : AUnit) (exclude : List AUnit)
    (discovered : Option (List AUnit)) : List String :=
  if saU = atom .pix ∨ saU = [] then []
  else
    match discovered with
    | none => []
    | some eqs => spectralListVal exclude eqs

/-- The locally defined flux units of `create_flux_equivalencies_list`. -/
def fluxLocals : List AUnit :=
  [atom .Jy, atom .mJy, atom .uJy, atom .MJy,
   unorm [(.W, 1), (.Hz, -1), (.m, -2)],
   unorm [(.eV, 1), (.s, -1), (.m, -2), (.Hz, -1)],
   unorm [(.erg, 1), (.s, -1), (.cm, -2)],
   unorm [(.erg, 1), (.s, -1), (.cm, -2), (.AA, -1)],
   unorm [(.erg, 1), (.s, -1), (.cm, -2), (.Hz, -1)],
   unorm [(.ph, 1), (.AA, -1), (.s, -1), (.cm, -2)],
   unorm [(.ph, 1), (.Hz, -1), (.s, -1), (.cm, -2)]]

/-- The `incompatible` list assigned in `create_flux_equivalencies_list`. -/
def fluxIncompatList : List AUnit :=
  [unorm [(.ph, 1), (.AA, -1), (.s, -1), (.cm, -2)],
   unorm [(.ph, 1), (.Hz, -1), (.s, -1), (.cm, -2)],
   atom .ST, atom .bol, atom .AB,
   unorm [(.erg, 1), (.AA, -1), (.s, -1), (.cm, -2)],
   unorm [(.erg, 1), (.s, -1), (.cm, -2)]]

/-- The jansky units whose bases are probed against `data_item_unit.bases`. -/
def janskyBases : List BaseU := [.Jy, .mJy, .uJy, .MJy]

/-- The `incompatible` set computed by `create_flux_equivalencies_list`:
empty unless `data_item_unit` is given, contains `u.sr` among its bases, and
shares a base with one of the jansky units. -/
def fluxIncompat (diu : Option AUnit) : List AUnit :=
  match diu with
  | none => []
  | some d =>
    if hasSr d = true ∧ janskyBases.any (fun j => d.any (fun p => p.1 == j)) = true then
      fluxIncompatList
    else []

/-- `list(set(local_units) - set(incompatible))` in the flux builder. -/
def fluxLocalsFiltered (diu : Option AUnit) : List AUnit :=
  fluxLocals.dedup.filter (fun e => e ∉ fluxIncompat diu)

/-- The flux builder's discovered units minus (filtered) locals and
incompatible units. -/
def fluxDiscFiltered (diu : Option AUnit) (eqs : List AUnit) : List AUnit :=
  eqs.dedup.filter (fun e => e ∉ fluxLocalsFiltered diu ∧ e ∉ fluxIncompat diu)

/-- The non-degenerate, non-raising return value of
`create_flux_equivalencies_list` — note it depends only on `data_item_unit`
and the discovered list, never on the value read from the data collection. -/
def fluxListVal (diu : Option AUnit) (eqs : List AUnit) : List String :=
  sortStr (units_to_strings (fluxLocalsFiltered diu)) ++
    sortStr (units_to_strings (fluxDiscFiltered diu eqs))

/-- One debug line appended to `example.txt` by the flux/sb builders. -/
def debugLine (x : AUnit) : String := "s unit - " ++ toStr x ++ "!"

/-- `create_flux_equivalencies_list` from `validunits.py`, with its side
effects made explicit.  `discovered` models `find_equivalent_units` under
`u.spectral_density(1 * spectral_axis_unit)` (`none` = `UnitConversionError`);
`appDC` models `jdaviz.app`: `none` when the module lacks a `data_collection`
attribute, `some items` (each item's stored unit) when it has one.  Result:
the returned list (or the uncaught `IndexError` on an empty data collection)
paired with the lines appended to `example.txt`. -/
def create_flux_equivalencies_list (fluxU saU : AUnit) (diu : Option AUnit)
    (discovered : Option (List AUnit)) (appDC : Option (List AUnit)) :
    Except String (List String) × List String :=
  if fluxU = atom .ct ∨ fluxU = [] ∨ saU = atom .pix ∨ saU = [] then (.ok [], [])
  else
    match discovered with
    | none => (.ok [], [])
    | some eqs =>
      match appDC with
      | some [] => (.error "IndexError", [debugLine fluxU])
      | none => (.ok (fluxListVal diu eqs), [debugLine fluxU])
      | some (d :: _) => (.ok (fluxListVal diu eqs), [debugLine fluxU, debugLine d])

/-- The locally defined surface-brightness units of
`create_sb_equivalencies_list` (the Python list literally repeats
`'Jy / sr'`; the duplicate is kept here and removed by the builder's `set`
conversion, i.e. `dedup`). -/
def sbLocals : List AUnit :=
  [uDiv (atom .Jy) srU, uDiv (atom .mJy) srU, uDiv (atom .uJy) srU,
   uDiv (atom .MJy) srU, uDiv (atom .Jy) srU,
   unorm [(.W, 1), (.Hz, -1), (.sr, -1), (.m, -2)],
   unorm [(.eV, 1), (.s, -1), (.m, -2), (.Hz, -1), (.sr, -1)],
   unorm [(.erg, 1), (.s, -1), (.cm, -2), (.sr, -1)],
   unorm [(.erg, 1), (.s, -1), (.cm, -2), (.AA, -1), (.sr, -1)],
   unorm [(.erg, 1), (.s, -1), (.cm, -2), (.Hz, -1), (.sr, -1)],
   unorm [(.ph, 1), (.s, -1), (.cm, -2), (.AA, -1), (.sr, -1)],
   unorm [(.ph, 1), (.s, -1), (.cm, -2), (.Hz, -1), (.sr, -1)],
   uDiv (atom .bol) srU, uDiv (atom .AB) srU, uDiv (atom .ST) srU]

/-- The `incompatible` list assigned in `create_sb_equivalencies_list`. -/
def sbIncompatList : List AUnit :=
  [unorm [(.ph, 1), (.AA, -1), (.s, -1), (.sr, -1), (.cm, -2)],
   unorm [(.ph, 1), (.Hz, -1), (.s, -1), (.sr, -1), (.cm, -2)],
   uDiv (atom .ST) srU, uDiv (atom .bol) srU,
   unorm [(.erg, 1), (.AA, -1), (.s, -1), (.sr, -1), (.cm, -2)],
   unorm [(.erg, 1), (.Hz, -1), (.s, -1), (.sr, -1), (.cm, -2)],
   unorm [(.erg, 1), (.s, -1), (.sr, -1), (.cm, -2)]]

/-- The `incompatible` set computed by `create_sb_equivalencies_list`:
empty unless `data_item_unit` is given, lacks `u.sr` among its bases, and
shares a base with one of the jansky units. -/
def sbIncompat (diu : Option AUnit) : List AUnit :=
  match diu with
  | none => []
  | some d =>
    if hasSr d = false ∧ janskyBases.any (fun j => d.any (fun p => p.1 == j)) = true then
      sbIncompatList
    else []

/-- `list(set(local_units) - set(incompatible))` in the sb builder. -/
def sbLocalsFiltered (diu : Option AUnit) : List AUnit :=
  sbLocals.dedup.filter (fun e => e ∉ sbIncompat diu)

/-- The sb builder's discovered units minus (filtered) locals and
incompatible units. -/
def sbDiscFiltered (diu : Option AUnit) (eqs : List AUnit) : List AUnit :=
  eqs.dedup.filter (fun e => e ∉ sbLocalsFiltered diu ∧ e ∉ sbIncompat diu)

/-- The non-degenerate, non-raising return value of
`create_sb_equivalencies_list`. -/
def sbListVal (diu : Option AUnit) (eqs : List AUnit) : List String :=
  sortStr (units_to_strings (sbLocalsFiltered diu)) ++
    sortStr (units_to_strings (sbDiscFiltered diu eqs))

/-- `create_sb_equivalencies_list` from `validunits.py`, side effects made
explicit as for the flux builder.  Here the data-collection read happens
before the single file write, so an empty data collection raises the
`IndexError` with nothing appended. -/
def create_sb_equivalencies_list (sbU saU : AUnit) (diu : Option AUnit)
    (discovered : Option (List AUnit)) (appDC : Option (List AUnit)) :
    Except String (List String) × List String :=
  if sbU = atom .ct ∨ sbU = [] ∨ saU = atom .pix ∨ saU = [] then (.ok [], [])
  else
    match discovered with
    | none => (.ok [], [])
    | some eqs =>
      match appDC with
      | some [] => (.error "IndexError", [])
      | none => (.ok (sbListVal diu eqs), [debugLine sbU])
      | some (d :: _) => (.ok (sbListVal diu eqs), [debugLine d])

/-- `if not np.any([ref == u.Unit(choice) for choice in choices]): choices =
[ref] + choices` — the caller-side guarantee that the reference unit is a
member of the final choice list (astropy unit equality agreeing with
equality of canonical strings). -/
def ensureRef (s : String) (l : List String) : List String :=
  if s ∈ l then l else s :: l

/-- One `UnitSelectPluginComponent`: the traitlet pair of selected unit
string and choice-item strings.  `selected = none` renders as the empty
string (unresolved). -/
structure UnitSel where
  selected : Option AUnit
  choices : List String
deriving DecidableEq, Repr

/-- The selected unit as the traitlet string (empty while unresolved). -/
def UnitSel.selStr (sel : UnitSel) : String :=
  match sel.selected with
  | none => ""
  | some u => toStr u

/-- External collaborators of the plugin: glue's per-axis valid display-unit
choices, the astropy registry lookups used by the three builders, and the
`jdaviz.app` data-collection model shared with the builders. -/
structure Env where
  glueXChoices : List AUnit
  glueYChoices : List AUnit
  spectralDisc : AUnit → Option (List AUnit)
  fluxDisc : AUnit → AUnit → Option (List AUnit)
  sbDisc : AUnit → AUnit → Option (List AUnit)
  appDC : Option (List AUnit)

/-- The `UnitConversion` plugin state together with the glue viewer state it
reads and writes: the three unit selections, the two display units, the
broadcast log of `GlobalDisplayUnitChanged` events (axis name, unit string),
the `example.txt` contents appended by the builders, and the app config. -/
structure UCState where
  spectral : UnitSel
  flux : UnitSel
  sb : UnitSel
  xDisplay : Option AUnit
  yDisplay : Option AUnit
  broadcasts : List (String × String)
  file : List String
  config : String
deriving DecidableEq, Repr

/-- `_valid_glue_display_unit` for a non-empty unit string: succeed with the
canonical choice when some glue choice parses to an equal unit, otherwise
raise `ValueError` (glue choices are modelled in canonical form, so the
returned spelling is the unit itself). -/
def valid_glue_display_unit (x : AUnit) (choices : List AUnit) : Except String AUnit :=
  if x ∈ choices then .ok x else .error "no matching display unit"

/-- `UnitConversion._on_glue_y_display_unit_changed`.  No-op on `None` or
while the spectral selection is unresolved; otherwise classify the new y
unit by its solid-angle factor, recompute both equivalency lists (passing
`data_item_unit=None`), ensure membership for the changed category, and set
the pair of mirrored selections.  A `ValueError` from the choice validation
or an `IndexError` escaping a builder aborts the transition at that point. -/
def on_glue_y_display_unit_changed (env : Env) (st : UCState) (yOpt : Option AUnit) :
    UCState :=
  match yOpt with
  | none => st
  | some y =>
    match st.spectral.selected with
    | none => st
    | some xU =>
      if xU = [] then st
      else
        let ownSel := if hasSr y = true then st.sb.selStr else st.flux.selStr
        if toStr y = ownSel then st
        else
          match valid_glue_display_unit y env.glueYChoices with
          | .error _ => st
          | .ok yv =>
            let fr := create_flux_equivalencies_list yv xU none (env.fluxDisc yv xU) env.appDC
            let st1 := { st with file := st.file ++ fr.2 }
            match fr.1 with
            | .error _ => st1
            | .ok fluxCh0 =>
              let sbr := create_sb_equivalencies_list yv xU none (env.sbDisc yv xU) env.appDC
              let st2 := { st1 with file := st1.file ++ sbr.2 }
              match sbr.1 with
              | .error _ => st2
              | .ok sbCh0 =>
                if hasSr y = true then
                  { st2 with
                    flux := { selected := some (uMul yv srU), choices := fluxCh0 },
                    sb := { selected := some yv, choices := ensureRef (toStr yv) sbCh0 } }
                else
                  { st2 with
                    flux := { selected := some yv, choices := ensureRef (toStr yv) fluxCh0 },
                    sb := { selected := some (uDiv yv srU), choices := sbCh0 } }

/-- `UnitConversion._on_glue_x_display_unit_changed`.  No-op on `None` or
when the unit already equals the spectral selection; otherwise recompute the
spectral equivalency list (default exclude list), ensure the new unit is a
member, set the selection, and when the flux or sb choices are still empty
re-trigger the y handler with the current glue y display unit. -/
def on_glue_x_display_unit_changed (env : Env) (st : UCState) (xOpt : Option AUnit) :
    UCState :=
  match xOpt with
  | none => st
  | some x =>
    if toStr x = st.spectral.selStr then st
    else
      match valid_glue_display_unit x env.glueXChoices with
      | .error _ => st
      | .ok xv =>
        let ch := ensureRef (toStr xv)
          (create_spectral_equivalencies_list xv spectralExcludeDefault (env.spectralDisc xv))
        let st1 := { st with spectral := { selected := some xv, choices := ch } }
        if st1.flux.choices.isEmpty ∨ st1.sb.choices.isEmpty then
          on_glue_y_display_unit_changed env st1 st1.yDisplay
        else st1

/-- `UnitConversion._on_spectral_unit_changed`: validate the selected
spectral unit against glue's x choices (the empty selection short-circuits
validation as the empty string) and, only when it differs from the current
x display unit, push it downstream and broadcast a
`GlobalDisplayUnitChanged('spectral', ...)` event. -/
def on_spectral_unit_changed (env : Env) (st : UCState) : UCState :=
  let xres : Except String AUnit :=
    match st.spectral.selected with
    | none => .ok []
    | some xu => if xu = [] then .ok [] else valid_glue_display_unit xu env.glueXChoices
  match xres with
  | .error _ => st
  | .ok xu =>
    if st.xDisplay = some xu then st
    else
      { st with xDisplay := some xu,
                broadcasts := st.broadcasts ++ [("spectral", st.spectral.selStr)] }

/-- `UnitConversion._on_flux_unit_changed`, observing both the flux and the
sb selection: pick the changed component's selection from the traitlet name,
validate it against glue's y choices, and only when it differs from the
current y display unit push it downstream and broadcast a
`GlobalDisplayUnitChanged('flux', ...)` event. -/
def on_flux_unit_changed (env : Env) (st : UCState) (argName : String) : UCState :=
  let sel : Option AUnit :=
    if argName = "flux_unit_selected" then st.flux.selected
    else if argName = "sb_unit_selected" then st.sb.selected
    else none
  let selStr : String := match sel with | none => "" | some u => toStr u
  let yres : Except String AUnit :=
    match sel with
    | none => .ok []
    | some yu => if yu = [] then .ok [] else valid_glue_display_unit yu env.glueYChoices
  match yres with
  | .error _ => st
  | .ok yu =>
    if st.yDisplay = some yu then st
    else
      { st with yDisplay := some yu,
                broadcasts := st.broadcasts ++ [("flux", selStr)] }

/-- `UnitConversion.translate_units`: multiply the current y display unit by
`u.sr` when it contains a solid-angle factor and Flux is requested, divide
by `u.sr` when it lacks one and Surface Brightness is requested, otherwise
leave the state unchanged.  (With no y display unit set, Python would raise
from `u.Unit(None)`; no state is changed in that case.) -/
def translate_units (st : UCState) (flux_or_sb_select : String) : UCState :=
  match st.yDisplay with
  | none => st
  | some yu =>
    if hasSr yu = true ∧ flux_or_sb_select = "Flux" then
      { st with yDisplay := some (uMul yu srU) }
    else if hasSr yu = false ∧ flux_or_sb_select = "Surface Brightness" then
      { st with yDisplay := some (uDiv yu srU) }
    else st

/-- `UnitConversion._translate`, observing both unit selections: a silent
no-op when the app config is `'specviz'`; otherwise map the changed traitlet
name to the target mode and delegate to `translate_units`.  There is no
scale-factor lookup and no error path in this function. -/
def translate_obs (st : UCState) (argName : String) : UCState :=
  if st.config = "specviz" then st
  else
    let sel := if argName = "flux_unit_selected" then "Flux"
               else if argName = "sb_unit_selected" then "Surface Brightness"
               else ""
    translate_units st sel

/-- One recorded marker row: the measured value with its unit and the stored
spectral-axis coordinate with its unit. -/
structure MarkerRec where
  value : ℚ
  valueUnit : String
  spectralAxis : ℚ
  spectralAxisUnit : String
deriving DecidableEq, Repr

/-- The Markers plugin's table of recorded rows. -/
structure MarkersTable where
  fluxUnit : String
  recs : List MarkerRec
deriving DecidableEq, Repr

/-- Modelled from the spec: the Markers plugin body is not among the
sources (only its test is), so its reaction to a global
flux/surface-brightness display-unit change is taken from the spec — every
existing record's value field is recomputed via unit conversion using the
spectral-density equivalency evaluated at the record's stored spectral-axis
value (not re-measured, not a plain scalar multiply).  `conv v fromU toU sa`
is the external unit-conversion at spectral-axis value `sa`. -/
def markers_on_global_flux_unit_changed
    (conv : ℚ → String → String → ℚ → ℚ) (newUnit : String) (t : MarkersTable) :
    MarkersTable :=
  { fluxUnit := newUnit,
    recs := t.recs.map (fun r =>
      { r with value := conv r.value r.valueUnit newUnit r.spectralAxis,
               valueUnit := newUnit }) }

/-- Injectivity of the rendered unit strings on a given list of units (the
astropy `to_string` of distinct units in play being distinct, which the
Python `set`-based dedup relies on). -/
def InjOnStr (l : List AUnit) : Prop :=
  ∀ a ∈ l, ∀ b ∈ l, toStr a = toStr b → a = b

instance instDecInjOnStr (l : List AUnit) : Decidable (InjOnStr l) :=
  decidable_of_iff (∀ a ∈ l, ∀ b ∈ l, toStr a = toStr b → a = b) Iff.rfl

theorem sortStr_perm (l : List String) : (sortStr l).Perm l :=
  List.perm_insertionSort _ l

theorem sortStr_sorted (l : List String) : (sortStr l).Sorted (· ≤ ·) :=
  List.sorted_insertionSort _ l

theorem mem_sortStr {a : String} {l : List String} : a ∈ sortStr l ↔ a ∈ l :=
  (sortStr_perm l).mem_iff

theorem sortStr_length (l : List String) : (sortStr l).length = l.length :=
  (sortStr_perm l).length_eq

theorem sortStr_nodup {l : List String} (h : l.Nodup) : (sortStr l).Nodup :=
  (sortStr_perm l).nodup_iff.mpr h

theorem injOnStr_mono {l1 l2 : List AUnit} (hsub : ∀ a ∈ l1, a ∈ l2)
    (h : InjOnStr l2) : InjOnStr l1 :=
  fun a ha b hb he => h a (hsub a ha) b (hsub b hb) he

theorem units_to_strings_nodup {l : List AUnit} (hinj : InjOnStr l) (h : l.Nodup) :
    (units_to_strings l).Nodup :=
  h.map_on hinj

/-- The common result shape of all three builders: a concatenation of two
string-sorted blocks with no duplicate entries anywhere. -/
theorem buildPair_nodup {A B : List AUnit} (hA : A.Nodup) (hB : B.Nodup)
    (hd : ∀ b ∈ B, b ∉ A) (hinj : InjOnStr (A ++ B)) :
    (sortStr (units_to_strings A) ++ sortStr (units_to_strings B)).Nodup := by
  have hiA : InjOnStr A := injOnStr_mono (fun a ha => List.mem_append_left _ ha) hinj
  have hiB : InjOnStr B := injOnStr_mono (fun a ha => List.mem_append_right _ ha) hinj
  have nA : (sortStr (units_to_strings A)).Nodup :=
    sortStr_nodup (units_to_strings_nodup hiA hA)
  have nB : (sortStr (units_to_strings B)).Nodup :=
    sortStr_nodup (units_to_strings_nodup hiB hB)
  refine nA.append nB ?_
  rw [List.disjoint_left]
  intro sx hsA hsB
  rw [mem_sortStr] at hsA hsB
  obtain ⟨a, haA, rfl⟩ := List.mem_map.mp hsA
  obtain ⟨b, hbB, hba⟩ := List.mem_map.mp hsB
  have hba2 : b = a :=
    hinj b (List.mem_append_right _ hbB) a (List.mem_append_left _ haA) hba
  exact hd b hbB (hba2 ▸ haA)

theorem ensureRef_mem (s : String) (l : List String) : s ∈ ensureRef s l := by
  by_cases hm : s ∈ l
  · rw [ensureRef, if_pos hm]
    exact hm
  · simp [ensureRef, hm]

theorem ensureRef_nodup {s : String} {l : List String} (h : l.Nodup) :
    (ensureRef s l).Nodup := by
  by_cases hm : s ∈ l
  · simpa [ensureRef, hm] using h
  · simp only [ensureRef, hm, if_false]
    exact List.nodup_cons.mpr ⟨hm, h⟩

theorem ensureRef_count {s : String} {l : List String} (h : l.Nodup) :
    (ensureRef s l).count s = 1 := by
  by_cases hm : s ∈ l
  · simpa [ensureRef, hm] using List.count_eq_one_of_mem h hm
  · have h0 : l.count s = 0 := List.count_eq_zero.mpr hm
    simp [ensureRef, hm, h0]

/-- The claimed result shape: `res` is the sorted rendering of `A` followed
by the sorted rendering of `B`, each block alphabetically sorted, and the
whole has no duplicates. -/
def ConcatSortedNodup (res : List String) (A B : List AUnit) : Prop :=
  res = sortStr (units_to_strings A) ++ sortStr (units_to_strings B) ∧
  (sortStr (units_to_strings A)).Sorted (· ≤ ·) ∧
  (sortStr (units_to_strings B)).Sorted (· ≤ ·) ∧
  res.Nodup

theorem spectralListVal_nodup {exclude dS : List AUnit}
    (hinj : InjOnStr (spectralLocals ++ dS.dedup)) :
    (spectralListVal exclude dS).Nodup := by
  apply buildPair_nodup
  · decide
  · exact (List.nodup_dedup dS).filter _
  · intro b hb
    have hb2 := (List.mem_filter.mp hb).2
    simp only [decide_eq_true_eq, List.mem_append, not_or] at hb2
    exact hb2.1
  · refine injOnStr_mono ?_ hinj
    intro a ha
    rcases List.mem_append.mp ha with h | h
    · exact List.mem_append_left _ h
    · exact List.mem_append_right _ (List.mem_filter.mp h).1

theorem fluxListVal_nodup {diu : Option AUnit} {dF : List AUnit}
    (hinj : InjOnStr (fluxLocals.dedup ++ dF.dedup)) :
    (fluxListVal diu dF).Nodup := by
  apply buildPair_nodup
  · exact (List.nodup_dedup _).filter _
  · exact (List.nodup_dedup _).filter _
  · intro b hb
    have hb2 := (List.mem_filter.mp hb).2
    simp only [decide_eq_true_eq] at hb2
    exact hb2.1
  · refine injOnStr_mono ?_ hinj
    intro a ha
    rcases List.mem_append.mp ha with h | h
    · exact List.mem_append_left _ (List.mem_filter.mp h).1
    · exact List.mem_append_right _ (List.mem_filter.mp h).1

theorem sbListVal_nodup {diu : Option AUnit} {dB : List AUnit}
    (hinj : InjOnStr (sbLocals.dedup ++ dB.dedup)) :
    (sbListVal diu dB).Nodup := by
  apply buildPair_nodup
  · exact (List.nodup_dedup _).filter _
  · exact (List.nodup_dedup _).filter _
  · intro b hb
    have hb2 := (List.mem_filter.mp hb).2
    simp only [decide_eq_true_eq] at hb2
    exact hb2.1
  · refine injOnStr_mono ?_ hinj
    intro a ha
    rcases List.mem_append.mp ha with h | h
    · exact List.mem_append_left _ (List.mem_filter.mp h).1
    · exact List.mem_append_right _ (List.mem_filter.mp h).1

theorem create_spectral_eq {x : AUnit} {exclude dS : List AUnit}
    (hx1 : x ≠ atom .pix) (hx2 : x ≠ []) :
    create_spectral_equivalencies_list x exclude (some dS) = spectralListVal exclude dS := by
  simp [create_spectral_equivalencies_list, hx1, hx2]

theorem create_flux_eq {fluxU saU : AUnit} {diu : Option AUnit} {dF : List AUnit}
    {appDC : Option (List AUnit)}
    (h1 : fluxU ≠ atom .ct) (h2 : fluxU ≠ []) (h3 : saU ≠ atom .pix) (h4 : saU ≠ [])
    (happ : appDC ≠ some []) :
    (create_flux_equivalencies_list fluxU saU diu (some dF) appDC).1 =
      .ok (fluxListVal diu dF) := by
  unfold create_flux_equivalencies_list
  rw [if_neg (by simp [h1, h2, h3, h4])]
  match appDC with
  | none => rfl
  | some [] => exact absurd rfl happ
  | some (d :: t) => rfl

theorem create_sb_eq {sbU saU : AUnit} {diu : Option AUnit} {dB : List AUnit}
    {appDC : Option (List AUnit)}
    (h1 : sbU ≠ atom .ct) (h2 : sbU ≠ []) (h3 : saU ≠ atom .pix) (h4 : saU ≠ [])
    (happ : appDC ≠ some []) :
    (create_sb_equivalencies_list sbU saU diu (some dB) appDC).1 =
      .ok (sbListVal diu dB) := by
  unfold create_sb_equivalencies_list
  rw [if_neg (by simp [h1, h2, h3, h4])]
  match appDC with
  | none => rfl
  | some [] => exact absurd rfl happ
  | some (d :: t) => rfl

theorem create_flux_none {fluxU saU : AUnit} {diu : Option AUnit} {dF : List AUnit}
    (h1 : fluxU ≠ atom .ct) (h2 : fluxU ≠ []) (h3 : saU ≠ atom .pix) (h4 : saU ≠ []) :
    create_flux_equivalencies_list fluxU saU diu (some dF) none =
      (.ok (fluxListVal diu dF), [debugLine fluxU]) := by
  unfold create_flux_equivalencies_list
  rw [if_neg (by simp [h1, h2, h3, h4])]

theorem create_sb_none {sbU saU : AUnit} {diu : Option AUnit} {dB : List AUnit}
    (h1 : sbU ≠ atom .ct) (h2 : sbU ≠ []) (h3 : saU ≠ atom .pix) (h4 : saU ≠ []) :
    create_sb_equivalencies_list sbU saU diu (some dB) none =
      (.ok (sbListVal diu dB), [debugLine sbU]) := by
  unfold create_sb_equivalencies_list
  rw [if_neg (by simp [h1, h2, h3, h4])]

/-- The y-axis glue callback, fully evaluated on the success path (spectral
selection resolved, changed y unit, glue validation succeeding, no
data-collection attribute, registry lookups succeeding, no sentinel
units). -/
theorem yHandler_eq (env : Env) (st : UCState) (y xU : AUnit) (eqsF eqsB : List AUnit)
    (hsel : st.spectral.selected = some xU) (hx : xU ≠ [])
    (hown : toStr y ≠ (if hasSr y = true then st.sb.selStr else st.flux.selStr))
    (hglue : y ∈ env.glueYChoices)
    (happ : env.appDC = none)
    (hdF : env.fluxDisc y xU = some eqsF) (hdB : env.sbDisc y xU = some eqsB)
    (hs1 : y ≠ atom .ct) (hs2 : y ≠ []) (hs3 : xU ≠ atom .pix) :
    on_glue_y_display_unit_changed env st (some y) =
      (if hasSr y = true then
        { st with
          flux := { selected := some (uMul y srU), choices := fluxListVal none eqsF },
          sb := { selected := some y, choices := ensureRef (toStr y) (sbListVal none eqsB) },
          file := st.file ++ [debugLine y] ++ [debugLine y] }
      else
        { st with
          flux := { selected := some y, choices := ensureRef (toStr y) (fluxListVal none eqsF) },
          sb := { selected := some (uDiv y srU), choices := sbListVal none eqsB },
          file := st.file ++ [debugLine y] ++ [debugLine y] }) := by
  have hvg : valid_glue_display_unit y env.glueYChoices = .ok y := by
    simp [valid_glue_display_unit, hglue]
  have hF : create_flux_equivalencies_list y xU none (env.fluxDisc y xU) env.appDC
      = (.ok (fluxListVal none eqsF), [debugLine y]) := by
    rw [happ, hdF]
    exact create_flux_none hs1 hs2 hs3 hx
  have hB : create_sb_equivalencies_list y xU none (env.sbDisc y xU) env.appDC
      = (.ok (sbListVal none eqsB), [debugLine y]) := by
    rw [happ, hdB]
    exact create_sb_none hs1 hs2 hs3 hx
  unfold on_glue_y_display_unit_changed
  rw [hsel]
  simp only [hx, if_false, hown, hvg, hF, hB, ite_false]

theorem yHandler_spectral_const (env : Env) (st : UCState) (yo : Option AUnit) :
    (on_glue_y_display_unit_changed env st yo).spectral = st.spectral := by
  unfold on_glue_y_display_unit_changed
  cases yo with
  | none => rfl
  | some y =>
    cases st.spectral.selected with
    | none => rfl
    | some xU =>
      dsimp only
      repeat' split
      all_goals rfl

/-- The x-axis glue callback on its success path leaves the spectral
selection at the new unit with its ensured choice list (the optional
re-trigger of the y handler never touches the spectral selection). -/
theorem xHandler_spectral (env : Env) (st : UCState) (x : AUnit)
    (hne : toStr x ≠ st.spectral.selStr) (hglue : x ∈ env.glueXChoices) :
    (on_glue_x_display_unit_changed env st (some x)).spectral =
      { selected := some x,
        choices := ensureRef (toStr x)
          (create_spectral_equivalencies_list x spectralExcludeDefault
            (env.spectralDisc x)) } := by
  have hvg : valid_glue_display_unit x env.glueXChoices = .ok x := by
    simp [valid_glue_display_unit, hglue]
  unfold on_glue_x_display_unit_changed
  simp only [hne, if_false, hvg, ite_false]
  split
  · rw [yHandler_spectral_const]
  · rfl

/-- The data-model invariant of one `UnitSelection`, as the spec states it:
the selected string belongs to the choices once they are non-empty, and is
the empty string while unresolved. -/
def selInvariantB (s : UnitSel) : Bool :=
  if s.choices.isEmpty then decide (s.selStr = "") else decide (s.selStr ∈ s.choices)

/-- The spec's invariant for all three selections of the controller. -/
def ucInvariantB (st : UCState) : Bool :=
  selInvariantB st.spectral && selInvariantB st.flux && selInvariantB st.sb

theorem spectralListVal_ne_nil (exclude eqs : List AUnit) :
    spectralListVal exclude eqs ≠ [] := by
  intro h
  have h2 : (spectralListVal exclude eqs).length = 0 := by rw [h]; rfl
  rw [spectralListVal, List.length_append, sortStr_length, sortStr_length] at h2
  simp [units_to_strings] at h2
  exact absurd h2.1 (by decide)

theorem fluxIncompat_cases (diu : Option AUnit) :
    fluxIncompat diu = [] ∨ fluxIncompat diu = fluxIncompatList := by
  unfold fluxIncompat
  cases diu with
  | none => exact Or.inl rfl
  | some d =>
    by_cases hc : hasSr d = true ∧ (janskyBases.any fun j => List.any d fun p => p.1 == j) = true
    · exact Or.inr (if_pos hc)
    · exact Or.inl (if_neg hc)

theorem fluxLocalsFiltered_ne_nil (diu : Option AUnit) :
    fluxLocalsFiltered diu ≠ [] := by
  unfold fluxLocalsFiltered
  rcases fluxIncompat_cases diu with h | h <;> rw [h] <;> decide

theorem sbIncompat_cases (diu : Option AUnit) :
    sbIncompat diu = [] ∨ sbIncompat diu = sbIncompatList := by
  unfold sbIncompat
  cases diu with
  | none => exact Or.inl rfl
  | some d =>
    by_cases hc : hasSr d = false ∧ (janskyBases.any fun j => List.any d fun p => p.1 == j) = true
    · exact Or.inr (if_pos hc)
    · exact Or.inl (if_neg hc)

theorem sbLocalsFiltered_ne_nil (diu : Option AUnit) :
    sbLocalsFiltered diu ≠ [] := by
  unfold sbLocalsFiltered
  rcases sbIncompat_cases diu with h | h <;> rw [h] <;> decide

theorem fluxListVal_ne_nil (diu : Option AUnit) (eqs : List AUnit) :
    fluxListVal diu eqs ≠ [] := by
  intro h
  have h2 : (fluxListVal diu eqs).length = 0 := by rw [h]; rfl
  rw [fluxListVal, List.length_append, sortStr_length, sortStr_length] at h2
  simp [units_to_strings] at h2
  exact fluxLocalsFiltered_ne_nil diu h2.1

theorem sbListVal_ne_nil (diu : Option AUnit) (eqs : List AUnit) :
    sbListVal diu eqs ≠ [] := by
  intro h
  have h2 : (sbListVal diu eqs).length = 0 := by rw [h]; rfl
  rw [sbListVal, List.length_append, sortStr_length, sortStr_length] at h2
  simp [units_to_strings] at h2
  exact sbLocalsFiltered_ne_nil diu h2.1

/-- C1: For every valid physical reference unit (spectral, flux, or
surface-brightness), the equivalency list returned is the concatenation of
an alphabetically sorted locally-preferred sublist followed by an
alphabetically sorted list of the remaining library-discovered units,
contains no duplicates, and — after the caller's front insertion when the
builder's result omits it — contains the reference unit exactly once.
Stated for all three builders, for every discovered registry list and every
`data_item_unit`, under the injectivity of the rendered strings on the
units in play. -/
theorem claim_C1_equivalency_list_shape
    (x fU sU saU : AUnit) (diuF diuB : Option AUnit)
    (dS dF dB : List AUnit) (appDC : Option (List AUnit))
    (hx1 : x ≠ atom .pix) (hx2 : x ≠ [])
    (hIS : InjOnStr (spectralLocals ++ dS.dedup))
    (hf1 : fU ≠ atom .ct) (hf2 : fU ≠ []) (hsa1 : saU ≠ atom .pix) (hsa2 : saU ≠ [])
    (hIF : InjOnStr (fluxLocals.dedup ++ dF.dedup))
    (hb1 : sU ≠ atom .ct) (hb2 : sU ≠ [])
    (hIB : InjOnStr (sbLocals.dedup ++ dB.dedup))
    (happ : appDC ≠ some []) :
    (ConcatSortedNodup
        (create_spectral_equivalencies_list x spectralExcludeDefault (some dS))
        spectralLocals (spectralDiscFiltered spectralExcludeDefault dS) ∧
      (ensureRef (toStr x)
        (create_spectral_equivalencies_list x spectralExcludeDefault (some dS))).Nodup ∧
      (ensureRef (toStr x)
        (create_spectral_equivalencies_list x spectralExcludeDefault (some dS))).count
          (toStr x) = 1) ∧
    ((create_flux_equivalencies_list fU saU diuF (some dF) appDC).1 =
        .ok (fluxListVal diuF dF) ∧
      ConcatSortedNodup (fluxListVal diuF dF)
        (fluxLocalsFiltered diuF) (fluxDiscFiltered diuF dF) ∧
      (ensureRef (toStr fU) (fluxListVal diuF dF)).Nodup ∧
      (ensureRef (toStr fU) (fluxListVal diuF dF)).count (toStr fU) = 1) ∧
    ((create_sb_equivalencies_list sU saU diuB (some dB) appDC).1 =
        .ok (sbListVal diuB dB) ∧
      ConcatSortedNodup (sbListVal diuB dB)
        (sbLocalsFiltered diuB) (sbDiscFiltered diuB dB) ∧
      (ensureRef (toStr sU) (sbListVal diuB dB)).Nodup ∧
      (ensureRef (toStr sU) (sbListVal diuB dB)).count (toStr sU) = 1) := by
  have heqS : create_spectral_equivalencies_list x spectralExcludeDefault (some dS)
      = spectralListVal spectralExcludeDefault dS := create_spectral_eq hx1 hx2
  have hSn : (spectralListVal spectralExcludeDefault dS).Nodup := spectralListVal_nodup hIS
  have hFn : (fluxListVal diuF dF).Nodup := fluxListVal_nodup hIF
  have hBn : (sbListVal diuB dB).Nodup := sbListVal_nodup hIB
  refine ⟨⟨⟨?_, sortStr_sorted _, sortStr_sorted _, ?_⟩, ?_, ?_⟩,
    ⟨create_flux_eq hf1 hf2 hsa1 hsa2 happ,
      ⟨rfl, sortStr_sorted _, sortStr_sorted _, hFn⟩,
      ensureRef_nodup hFn, ensureRef_count hFn⟩,
    ⟨create_sb_eq hb1 hb2 hsa1 hsa2 happ,
      ⟨rfl, sortStr_sorted _, sortStr_sorted _, hBn⟩,
      ensureRef_nodup hBn, ensureRef_count hBn⟩⟩
  · rw [heqS]; rfl
  · rw [heqS]; exact hSn
  · rw [heqS]; exact ensureRef_nodup hSn
  · rw [heqS]; exact ensureRef_count hSn

/-- Witness for C1: spectral reference `u.m`, flux reference `u.Jy`,
surface-brightness reference `u.Jy / u.sr`, spectral axis `u.m`, empty
discovered lists, no data-collection attribute. -/
theorem claim_C1_equivalency_list_shape_witness :
    (ensureRef (toStr (atom .m))
      (create_spectral_equivalencies_list (atom .m) spectralExcludeDefault
        (some []))).count (toStr (atom .m)) = 1 :=
  (claim_C1_equivalency_list_shape (atom .m) (atom .Jy) (uDiv (atom .Jy) srU) (atom .m)
    none none [] [] [] none
    (by decide) (by decide) (by decide) (by decide) (by decide) (by decide)
    (by decide) (by decide) (by decide) (by decide) (by decide)
    (by decide)).1.2.2

/-- C7: Each equivalency-list builder returns the empty list exactly when
the reference unit is a sentinel (pixel/dimensionless for the spectral
axis; count/dimensionless for the flux or surface-brightness reference, or
a pixel/dimensionless spectral axis) or the library lookup reports no
convertible units (`UnitConversionError`), and in both situations the
result is a normal empty return, not an exception. -/
theorem claim_C7_empty_result_characterization :
    ∀ (saU fU sU : AUnit) (exclude : List AUnit) (diuF diuB : Option AUnit)
      (dS dF dB : Option (List AUnit)) (appDC : Option (List AUnit)),
      (create_spectral_equivalencies_list saU exclude dS = [] ↔
        (saU = atom .pix ∨ saU = [] ∨ dS = none)) ∧
      ((create_flux_equivalencies_list fU saU diuF dF appDC).1 = .ok [] ↔
        (fU = atom .ct ∨ fU = [] ∨ saU = atom .pix ∨ saU = [] ∨ dF = none)) ∧
      ((create_sb_equivalencies_list sU saU diuB dB appDC).1 = .ok [] ↔
        (sU = atom .ct ∨ sU = [] ∨ saU = atom .pix ∨ saU = [] ∨ dB = none)) := by
  intro saU fU sU exclude diuF diuB dS dF dB appDC
  refine ⟨⟨?_, ?_⟩, ⟨?_, ?_⟩, ⟨?_, ?_⟩⟩
  · intro hres
    by_contra hcon
    push_neg at hcon
    obtain ⟨n1, n2, n3⟩ := hcon
    cases dS with
    | none => exact n3 rfl
    | some eqs =>
      rw [create_spectral_eq n1 n2] at hres
      exact spectralListVal_ne_nil _ _ hres
  · intro h
    unfold create_spectral_equivalencies_list
    rcases h with h | h | h
    · rw [if_pos (Or.inl h)]
    · rw [if_pos (Or.inr h)]
    · rw [h]
      split <;> rfl
  · intro hres
    by_contra hcon
    push_neg at hcon
    obtain ⟨n1, n2, n3, n4, n5⟩ := hcon
    cases dF with
    | none => exact n5 rfl
    | some eqs =>
      unfold create_flux_equivalencies_list at hres
      rw [if_neg (by simp [n1, n2, n3, n4])] at hres
      cases appDC with
      | none =>
        simp only [Except.ok.injEq] at hres
        exact fluxListVal_ne_nil _ _ hres
      | some dc =>
        cases dc with
        | nil => simp at hres
        | cons d t =>
          simp only [Except.ok.injEq] at hres
          exact fluxListVal_ne_nil _ _ hres
  · intro h
    unfold create_flux_equivalencies_list
    rcases h with h | h | h | h | h
    · rw [if_pos (Or.inl h)]
    · rw [if_pos (Or.inr (Or.inl h))]
    · rw [if_pos (Or.inr (Or.inr (Or.inl h)))]
    · rw [if_pos (Or.inr (Or.inr (Or.inr h)))]
    · rw [h]
      split <;> rfl
  · intro hres
    by_contra hcon
    push_neg at hcon
    obtain ⟨n1, n2, n3, n4, n5⟩ := hcon
    cases dB with
    | none => exact n5 rfl
    | some eqs =>
      unfold create_sb_equivalencies_list at hres
      rw [if_neg (by simp [n1, n2, n3, n4])] at hres
      cases appDC with
      | none =>
        simp only [Except.ok.injEq] at hres
        exact sbListVal_ne_nil _ _ hres
      | some dc =>
        cases dc with
        | nil => simp at hres
        | cons d t =>
          simp only [Except.ok.injEq] at hres
          exact sbListVal_ne_nil _ _ hres
  · intro h
    unfold create_sb_equivalencies_list
    rcases h with h | h | h | h | h
    · rw [if_pos (Or.inl h)]
    · rw [if_pos (Or.inr (Or.inl h))]
    · rw [if_pos (Or.inr (Or.inr (Or.inl h)))]
    · rw [if_pos (Or.inr (Or.inr (Or.inr h)))]
    · rw [h]
      split <;> rfl

/-- C2: On an upstream y-axis display-unit change to `y` with the spectral
selection resolved and `y` differing from the corresponding current
selection, `y` is classified as surface-brightness exactly when a steradian
factor appears among its bases, both flux and surface-brightness choice
lists are recomputed from `y` and the current spectral unit, the selection
for `y`'s own category is set to `y`, and the other category's selection is
set to `y * sr` (when `y` is surface-brightness) or `y / sr` (when `y` is
flux).  The Jy→MJy scenario is the witness below. -/
theorem claim_C2_y_unit_change_mirrored_selections
    (env : Env) (st : UCState) (y xU : AUnit) (eqsF eqsB : List AUnit)
    (hsel : st.spectral.selected = some xU) (hx : xU ≠ [])
    (hown : toStr y ≠ (if hasSr y = true then st.sb.selStr else st.flux.selStr))
    (hglue : y ∈ env.glueYChoices)
    (happ : env.appDC = none)
    (hdF : env.fluxDisc y xU = some eqsF) (hdB : env.sbDisc y xU = some eqsB)
    (hs1 : y ≠ atom .ct) (hs2 : y ≠ []) (hs3 : xU ≠ atom .pix) :
    (hasSr y = true →
        (on_glue_y_display_unit_changed env st (some y)).sb.selected = some y ∧
        (on_glue_y_display_unit_changed env st (some y)).sb.choices
          = ensureRef (toStr y) (sbListVal none eqsB) ∧
        (on_glue_y_display_unit_changed env st (some y)).flux.selected
          = some (uMul y srU) ∧
        (on_glue_y_display_unit_changed env st (some y)).flux.choices
          = fluxListVal none eqsF) ∧
    (hasSr y = false →
        (on_glue_y_display_unit_changed env st (some y)).flux.selected = some y ∧
        (on_glue_y_display_unit_changed env st (some y)).flux.choices
          = ensureRef (toStr y) (fluxListVal none eqsF) ∧
        (on_glue_y_display_unit_changed env st (some y)).sb.selected
          = some (uDiv y srU) ∧
        (on_glue_y_display_unit_changed env st (some y)).sb.choices
          = sbListVal none eqsB) := by
  rw [yHandler_eq env st y xU eqsF eqsB hsel hx hown hglue happ hdF hdB hs1 hs2 hs3]
  constructor
  · intro hsr
    simp [hsr]
  · intro hsr
    simp [hsr]

/-- Concrete environment for the C2 scenario: glue accepts `MJy` on the y
axis, the registry lookups succeed with empty discovered lists, and the app
module has no data collection. -/
def envW : Env :=
  { glueXChoices := [atom .m], glueYChoices := [atom .MJy],
    spectralDisc := fun _ => some [], fluxDisc := fun _ _ => some [],
    sbDisc := fun _ _ => some [], appDC := none }

/-- Concrete state for the C2 scenario: spectral unit `m` resolved, current
flux selection `Jy`. -/
def stW : UCState :=
  { spectral := { selected := some (atom .m), choices := ["m"] },
    flux := { selected := some (atom .Jy), choices := ["Jy"] },
    sb := { selected := none, choices := [] },
    xDisplay := some (atom .m), yDisplay := some (atom .Jy),
    broadcasts := [], file := [], config := "cubeviz" }

/-- Witness for C2, realizing the spec scenario: spectral unit meters,
upstream y unit switching from `Jy` to `MJy` makes the flux selection `MJy`
and the surface-brightness selection `MJy / sr`. -/
theorem claim_C2_y_unit_change_witness :
    (on_glue_y_display_unit_changed envW stW (some (atom .MJy))).flux.selected
      = some (atom .MJy) ∧
    (on_glue_y_display_unit_changed envW stW (some (atom .MJy))).sb.selected
      = some (uDiv (atom .MJy) srU) ∧
    toStr (atom .MJy) = "MJy" ∧
    toStr (uDiv (atom .MJy) srU) = "MJy / sr" := by
  have h := claim_C2_y_unit_change_mirrored_selections envW stW (atom .MJy) (atom .m)
    [] [] rfl (by decide) (by decide) (by decide) rfl rfl rfl
    (by decide) (by decide) (by decide)
  obtain ⟨hfsel, hfch, hssel, hsch⟩ := h.2 (by decide)
  exact ⟨hfsel, hssel, by decide, by decide⟩

theorem fluxListVal_none_unfiltered (eqs : List AUnit) :
    fluxListVal none eqs =
      sortStr (units_to_strings fluxLocals.dedup) ++
        sortStr (units_to_strings (eqs.dedup.filter (fun e => e ∉ fluxLocals.dedup))) := by
  unfold fluxListVal fluxDiscFiltered fluxLocalsFiltered fluxIncompat
  simp

theorem sbListVal_none_unfiltered (eqs : List AUnit) :
    sbListVal none eqs =
      sortStr (units_to_strings sbLocals.dedup) ++
        sortStr (units_to_strings (eqs.dedup.filter (fun e => e ∉ sbLocals.dedup))) := by
  unfold sbListVal sbDiscFiltered sbLocalsFiltered sbIncompat
  simp

/-- C9: the y handler calls the flux and surface-brightness builders with
`data_item_unit` omitted (`None`), under which the incompatibility exclusion
set is empty, no locally preferred unit is filtered out, and the
controller-observed choice lists equal the unfiltered preferred block
followed by the discovered block (with the changed category's reference
ensured at the front when missing). -/
theorem claim_C9_controller_passes_no_data_item_unit
    (env : Env) (st : UCState) (y xU : AUnit) (eqsF eqsB : List AUnit)
    (hsel : st.spectral.selected = some xU) (hx : xU ≠ [])
    (hown : toStr y ≠ (if hasSr y = true then st.sb.selStr else st.flux.selStr))
    (hglue : y ∈ env.glueYChoices)
    (happ : env.appDC = none)
    (hdF : env.fluxDisc y xU = some eqsF) (hdB : env.sbDisc y xU = some eqsB)
    (hs1 : y ≠ atom .ct) (hs2 : y ≠ []) (hs3 : xU ≠ atom .pix) :
    fluxIncompat none = [] ∧ sbIncompat none = [] ∧
    fluxLocalsFiltered none = fluxLocals.dedup ∧
    sbLocalsFiltered none = sbLocals.dedup ∧
    (∀ eqs : List AUnit, fluxListVal none eqs =
      sortStr (units_to_strings fluxLocals.dedup) ++
        sortStr (units_to_strings (eqs.dedup.filter (fun e => e ∉ fluxLocals.dedup)))) ∧
    (∀ eqs : List AUnit, sbListVal none eqs =
      sortStr (units_to_strings sbLocals.dedup) ++
        sortStr (units_to_strings (eqs.dedup.filter (fun e => e ∉ sbLocals.dedup)))) ∧
    (on_glue_y_display_unit_changed env st (some y)).flux.choices =
      (if hasSr y = true then fluxListVal none eqsF
       else ensureRef (toStr y) (fluxListVal none eqsF)) ∧
    (on_glue_y_display_unit_changed env st (some y)).sb.choices =
      (if hasSr y = true then ensureRef (toStr y) (sbListVal none eqsB)
       else sbListVal none eqsB) := by
  rw [yHandler_eq env st y xU eqsF eqsB hsel hx hown hglue happ hdF hdB hs1 hs2 hs3]
  refine ⟨rfl, rfl, ?_, ?_, fluxListVal_none_unfiltered, sbListVal_none_unfiltered, ?_, ?_⟩
  · unfold fluxLocalsFiltered fluxIncompat
    simp
  · unfold sbLocalsFiltered sbIncompat
    simp
  · by_cases hsr : hasSr y = true <;> simp [hsr]
  · by_cases hsr : hasSr y = true <;> simp [hsr]

/-- Witness for C9 at the concrete Jy→MJy environment. -/
theorem claim_C9_controller_witness :
    (on_glue_y_display_unit_changed envW stW (some (atom .MJy))).flux.choices =
      ensureRef (toStr (atom .MJy)) (fluxListVal none []) :=
  (by simpa using
    (claim_C9_controller_passes_no_data_item_unit envW stW (atom .MJy) (atom .m) [] []
      rfl (by decide) (by decide) (by decide) rfl rfl rfl
      (by decide) (by decide) (by decide)).2.2.2.2.2.2.1)

theorem ensureRef_ne_nil (s : String) (l : List String) : ensureRef s l ≠ [] := by
  intro h
  have hm := ensureRef_mem s l
  rw [h] at hm
  exact List.not_mem_nil _ hm

theorem selInvariantB_ensure (u : AUnit) (l : List String) :
    selInvariantB { selected := some u, choices := ensureRef (toStr u) l } = true := by
  have hne := ensureRef_ne_nil (toStr u) l
  have hie : (ensureRef (toStr u) l).isEmpty = false := by
    rw [List.isEmpty_eq_false_iff_exists_mem]
    exact ⟨toStr u, ensureRef_mem _ _⟩
  simp [selInvariantB, UnitSel.selStr, hie, ensureRef_mem]

/-- Concrete environment for the C3 counterexample: glue accepts `ct`
(count) on the y axis. -/
def envC : Env :=
  { glueXChoices := [atom .m], glueYChoices := [atom .ct],
    spectralDisc := fun _ => some [], fluxDisc := fun _ _ => some [],
    sbDisc := fun _ _ => some [], appDC := none }

/-- Concrete state for the C3 counterexample: spectral unit resolved to `m`,
flux and surface-brightness selections still unresolved. -/
def stC : UCState :=
  { spectral := { selected := some (atom .m), choices := ["m"] },
    flux := { selected := none, choices := [] },
    sb := { selected := none, choices := [] },
    xDisplay := some (atom .m), yDisplay := some (atom .Jy),
    broadcasts := [], file := [], config := "cubeviz" }

/-- C3 counterexample: after the y handler runs on the upstream unit `ct`
(a flux-category sentinel), the surface-brightness selection is the
non-empty string `ct / sr` while its choice list is empty, so the spec's
invariant — selected ∈ choices once choices is non-empty, empty string while
unresolved — fails for one of the three selections after this transition. -/
theorem claim_C3_invariant_counterexample :
    ucInvariantB (on_glue_y_display_unit_changed envC stC (some (atom .ct))) = false ∧
    (on_glue_y_display_unit_changed envC stC (some (atom .ct))).sb.choices = [] ∧
    (on_glue_y_display_unit_changed envC stC (some (atom .ct))).sb.selStr = "ct / sr" := by
  refine ⟨?_, ?_, ?_⟩ <;> decide

/-- C3 amended: after a successful y transition the invariant holds for the
changed category (its selection is ensured to be a member of its non-empty
choice list), and the spectral selection is untouched; the x transition
establishes the invariant for the spectral selection.  The mirrored
category's selection, however, may fall outside its choices (see the
counterexample), so the invariant does not hold for all three selections
after every transition. -/
theorem claim_C3_invariant_amended
    (env : Env) (st : UCState) (y xU x : AUnit) (eqsF eqsB : List AUnit)
    (hsel : st.spectral.selected = some xU) (hx : xU ≠ [])
    (hown : toStr y ≠ (if hasSr y = true then st.sb.selStr else st.flux.selStr))
    (hglue : y ∈ env.glueYChoices)
    (happ : env.appDC = none)
    (hdF : env.fluxDisc y xU = some eqsF) (hdB : env.sbDisc y xU = some eqsB)
    (hs1 : y ≠ atom .ct) (hs2 : y ≠ []) (hs3 : xU ≠ atom .pix)
    (hxne : toStr x ≠ st.spectral.selStr) (hxglue : x ∈ env.glueXChoices) :
    (if hasSr y = true then
        selInvariantB (on_glue_y_display_unit_changed env st (some y)).sb = true
      else
        selInvariantB (on_glue_y_display_unit_changed env st (some y)).flux = true) ∧
    (on_glue_y_display_unit_changed env st (some y)).spectral = st.spectral ∧
    selInvariantB (on_glue_x_display_unit_changed env st (some x)).spectral = true := by
  refine ⟨?_, yHandler_spectral_const env st (some y), ?_⟩
  · rw [yHandler_eq env st y xU eqsF eqsB hsel hx hown hglue happ hdF hdB hs1 hs2 hs3]
    by_cases hsr : hasSr y = true
    · simp only [hsr, if_true]
      exact selInvariantB_ensure y _
    · simp only [hsr, if_false]
      rw [if_neg ?hn]
      case hn => simp [hsr]
      exact selInvariantB_ensure y _
  · rw [xHandler_spectral env st x hxne hxglue]
    exact selInvariantB_ensure x _

/-- Environment for the C3-amended witness: glue accepts `Hz` on x and
`MJy` on y. -/
def envW2 : Env :=
  { glueXChoices := [atom .Hz], glueYChoices := [atom .MJy],
    spectralDisc := fun _ => some [], fluxDisc := fun _ _ => some [],
    sbDisc := fun _ _ => some [], appDC := none }

/-- Witness for the amended C3 at concrete inputs. -/
theorem claim_C3_invariant_amended_witness :
    selInvariantB (on_glue_y_display_unit_changed envW2 stW (some (atom .MJy))).flux = true ∧
    selInvariantB (on_glue_x_display_unit_changed envW2 stW (some (atom .Hz))).spectral
      = true := by
  have h := claim_C3_invariant_amended envW2 stW (atom .MJy) (atom .m) (atom .Hz) [] []
    rfl (by decide) (by decide) (by decide) rfl rfl rfl
    (by decide) (by decide) (by decide) (by decide) (by decide)
  refine ⟨?_, h.2.2⟩
  have h1 := h.1
  rw [if_neg ?hn] at h1
  case hn => decide
  exact h1

/-- C4 counterexample: with the displayed unit `Jy`, no scale factor
anywhere in the model (the embedded code consults none), and regardless of
any translator-shown state (the embedded code has none), a Surface
Brightness translation request in a non-specviz (cubeviz) configuration is
not an error: it silently divides the display unit by `sr` and pushes
`Jy / sr` downstream, contradicting the claimed user-facing failure. -/
theorem claim_C4_translate_counterexample :
    (translate_obs stW "sb_unit_selected").yDisplay = some (uDiv (atom .Jy) srU) ∧
    toStr (uDiv (atom .Jy) srU) = "Jy / sr" ∧
    translate_obs stW "sb_unit_selected" ≠ stW := by
  refine ⟨?_, ?_, ?_⟩ <;> decide

/-- C4 amended: a translation request is a silent no-op exactly when the app
configuration is `'specviz'`; otherwise the displayed quantity's unit is
multiplied by the solid-angle unit (surface-brightness unit, Flux selected)
or divided by it (flux unit, Surface Brightness selected) and pushed
downstream, and in the remaining combinations nothing changes — there is no
scale-factor availability check and no user-facing error on this path. -/
theorem claim_C4_translate_amended (st : UCState) (argName : String) :
    (st.config = "specviz" → translate_obs st argName = st) ∧
    (st.config ≠ "specviz" → ∀ yu : AUnit, st.yDisplay = some yu →
      (argName = "sb_unit_selected" → hasSr yu = false →
        (translate_obs st argName).yDisplay = some (uDiv yu srU)) ∧
      (argName = "flux_unit_selected" → hasSr yu = true →
        (translate_obs st argName).yDisplay = some (uMul yu srU)) ∧
      (argName = "sb_unit_selected" → hasSr yu = true →
        translate_obs st argName = st) ∧
      (argName = "flux_unit_selected" → hasSr yu = false →
        translate_obs st argName = st)) := by
  constructor
  · intro h
    simp [translate_obs, h]
  · intro hcfg yu hy
    refine ⟨?_, ?_, ?_, ?_⟩ <;> intro ha hs <;>
      simp [translate_obs, hcfg, ha, translate_units, hy, hs]

/-- Witness for the amended C4: concrete cubeviz state with display unit
`Jy`, Surface Brightness request divides by `sr`. -/
theorem claim_C4_translate_amended_witness :
    (translate_obs stW "sb_unit_selected").yDisplay = some (uDiv (atom .Jy) srU) :=
  ((claim_C4_translate_amended stW "sb_unit_selected").2 (by decide) (atom .Jy) rfl).1
    rfl (by decide)

/-- C5: a user selection (spectral, flux, or surface-brightness) whose
normalized value equals the viewer's current display unit for its axis
leaves the observer handlers as exact no-ops: nothing is written to the
display-unit state and no `GlobalDisplayUnitChanged` event is broadcast. -/
theorem claim_C5_identical_selection_is_noop
    (env : Env) (st : UCState) (xu yuF yuS : AUnit)
    (hxsel : st.spectral.selected = some xu) (hxne : xu ≠ [])
    (hxch : xu ∈ env.glueXChoices) (hxdisp : st.xDisplay = some xu)
    (hfsel : st.flux.selected = some yuF) (hfne : yuF ≠ [])
    (hfch : yuF ∈ env.glueYChoices) (hfdisp : st.yDisplay = some yuF)
    (hssel : st.sb.selected = some yuS) (hsne : yuS ≠ [])
    (hsch : yuS ∈ env.glueYChoices) (hsdisp : st.yDisplay = some yuS) :
    on_spectral_unit_changed env st = st ∧
    on_flux_unit_changed env st "flux_unit_selected" = st ∧
    on_flux_unit_changed env st "sb_unit_selected" = st := by
  refine ⟨?_, ?_, ?_⟩
  · simp [on_spectral_unit_changed, hxsel, hxne, valid_glue_display_unit, hxch, hxdisp]
  · simp [on_flux_unit_changed, hfsel, hfne, valid_glue_display_unit, hfch, hfdisp]
  · simp [on_flux_unit_changed, hssel, hsne, valid_glue_display_unit, hsch, hsdisp]

/-- Concrete state for the C5 witness: every selection already equals the
corresponding display unit. -/
def stV : UCState :=
  { spectral := { selected := some (atom .m), choices := ["m"] },
    flux := { selected := some (atom .Jy), choices := ["Jy"] },
    sb := { selected := some (atom .Jy), choices := ["Jy"] },
    xDisplay := some (atom .m), yDisplay := some (atom .Jy),
    broadcasts := [], file := [], config := "cubeviz" }

/-- Environment for the C5 witness. -/
def envV : Env :=
  { glueXChoices := [atom .m], glueYChoices := [atom .Jy],
    spectralDisc := fun _ => some [], fluxDisc := fun _ _ => some [],
    sbDisc := fun _ _ => some [], appDC := none }

/-- Witness for C5 at concrete inputs. -/
theorem claim_C5_identical_selection_witness :
    on_spectral_unit_changed envV stV = stV ∧
    on_flux_unit_changed envV stV "flux_unit_selected" = stV ∧
    on_flux_unit_changed envV stV "sb_unit_selected" = stV :=
  claim_C5_identical_selection_is_noop envV stV (atom .m) (atom .Jy) (atom .Jy)
    rfl (by decide) (by decide) rfl rfl (by decide) (by decide) rfl
    rfl (by decide) (by decide) rfl

/-- C6 counterexample: for the same quantity (flux reference `Jy`,
surface-brightness reference `Jy / sr`, spectral axis `m`, no data-item
unit, empty discovered registry list) the flux list has 11 entries while
the surface-brightness list has 14 — `AB / sr` is a surface-brightness
entry whose would-be flux counterpart `AB` is absent — so no one-to-one
correspondence pairing each sb entry with a flux entry divided by one
factor of `sr` exists. -/
theorem claim_C6_counterexample :
    (create_flux_equivalencies_list (atom .Jy) (atom .m) none (some []) none).1 =
      .ok (fluxListVal none []) ∧
    (create_sb_equivalencies_list (uDiv (atom .Jy) srU) (atom .m) none (some []) none).1 =
      .ok (sbListVal none []) ∧
    (fluxListVal none []).length = 11 ∧
    (sbListVal none []).length = 14 ∧
    "AB / sr" ∈ sbListVal none [] ∧
    "AB" ∉ fluxListVal none [] := by
  refine ⟨create_flux_eq (by decide) (by decide) (by decide) (by decide) (by decide),
    create_sb_eq (by decide) (by decide) (by decide) (by decide) (by decide),
    ?_, ?_, ?_, ?_⟩
  · rw [fluxListVal, List.length_append, sortStr_length, sortStr_length]
    simp only [units_to_strings, List.length_map]
    decide
  · rw [sbListVal, List.length_append, sortStr_length, sortStr_length]
    simp only [units_to_strings, List.length_map]
    decide
  · rw [sbListVal, List.mem_append, mem_sortStr, mem_sortStr]
    left
    decide
  · intro h
    rw [fluxListVal, List.mem_append, mem_sortStr, mem_sortStr] at h
    exact absurd h (by decide)

/-- C6 amended: each of the locally preferred flux entries corresponds to a
locally preferred surface-brightness entry equal to it divided by exactly
one factor of `sr`, but the correspondence is not one-to-one on the full
lists: the surface-brightness locals additionally contain `AB / sr`,
`ST / sr` and `bol / sr`, and the discovered blocks of the two builders are
computed independently. -/
theorem claim_C6_flux_sb_local_correspondence (f : AUnit) (hf : f ∈ fluxLocals) :
    uDiv f srU ∈ sbLocals ∧ toStr (uDiv f srU) ∈ units_to_strings sbLocals.dedup := by
  have hall : ∀ x ∈ fluxLocals,
      uDiv x srU ∈ sbLocals ∧ toStr (uDiv x srU) ∈ units_to_strings sbLocals.dedup := by
    decide
  exact hall f hf

/-- Witness for the amended C6 at `Jy`. -/
theorem claim_C6_flux_sb_local_correspondence_witness :
    uDiv (atom .Jy) srU ∈ sbLocals ∧
    toStr (uDiv (atom .Jy) srU) ∈ units_to_strings sbLocals.dedup :=
  claim_C6_flux_sb_local_correspondence (atom .Jy) (by decide)

/-- C8: after a global flux/surface-brightness display-unit change, every
previously recorded marker's value equals the unit conversion — via the
equivalency evaluated at the record's stored spectral-axis value — of its
pre-change value into the new unit, and its value unit becomes the new
unit.  (The marker recorder itself is modelled from the spec; the abstract
`conv` receives the record's stored spectral-axis value, capturing the
spectral-density equivalency rather than a plain scalar multiply.) -/
theorem claim_C8_marker_values_recomputed
    (conv : ℚ → String → String → ℚ → ℚ) (newUnit : String) (t : MarkersTable)
    (i : ℕ) (r : MarkerRec) (h : t.recs[i]? = some r) :
    (markers_on_global_flux_unit_changed conv newUnit t).recs[i]? =
      some { r with value := conv r.value r.valueUnit newUnit r.spectralAxis,
                    valueUnit := newUnit } := by
  simp [markers_on_global_flux_unit_changed, List.getElem?_map, h]

/-- Concrete conversion function for the C8 witness. -/
def convV : ℚ → String → String → ℚ → ℚ := fun v _ _ sa => v * sa

/-- Concrete marker table for the C8 witness. -/
def tV : MarkersTable :=
  { fluxUnit := "Jy",
    recs := [{ value := 8, valueUnit := "Jy", spectralAxis := 1/2,
               spectralAxisUnit := "m" }] }

/-- Witness for C8 at a concrete record and conversion. -/
theorem claim_C8_marker_values_recomputed_witness :
    (markers_on_global_flux_unit_changed convV "MJy" tV).recs[0]? =
      some { value := convV 8 "Jy" "MJy" (1/2), valueUnit := "MJy",
             spectralAxis := 1/2, spectralAxisUnit := "m" } :=
  claim_C8_marker_values_recomputed convV "MJy" tV 0
    { value := 8, valueUnit := "Jy", spectralAxis := 1/2, spectralAxisUnit := "m" } rfl

/-- C10: on every call past the sentinel/discovery checks, the flux and
surface-brightness builders perform side effects not reflected in their
result — they append debug text to `example.txt` (the flux builder writes
once, or twice when the app exposes a data collection; the sb builder
writes the data-collection unit when present), and whenever the app module
exposes a `data_collection` they read the unit of its first item by index
0, so with an empty data collection the call raises an IndexError even for
valid physical reference units — while the value read never influences the
returned list. -/
theorem claim_C10_builder_side_effects
    (fU sU saU d : AUnit) (diu : Option AUnit) (eqs : List AUnit) (dc : List AUnit)
    (hf1 : fU ≠ atom .ct) (hf2 : fU ≠ []) (hsa1 : saU ≠ atom .pix) (hsa2 : saU ≠ [])
    (hs1 : sU ≠ atom .ct) (hs2 : sU ≠ []) :
    (create_flux_equivalencies_list fU saU diu (some eqs) none).2 = [debugLine fU] ∧
    (create_flux_equivalencies_list fU saU diu (some eqs) (some (d :: dc))).2
      = [debugLine fU, debugLine d] ∧
    (create_flux_equivalencies_list fU saU diu (some eqs) (some [])).1
      = .error "IndexError" ∧
    (create_flux_equivalencies_list fU saU diu (some eqs) (some [])).2
      = [debugLine fU] ∧
    (create_sb_equivalencies_list sU saU diu (some eqs) none).2 = [debugLine sU] ∧
    (create_sb_equivalencies_list sU saU diu (some eqs) (some (d :: dc))).2
      = [debugLine d] ∧
    (create_sb_equivalencies_list sU saU diu (some eqs) (some [])).1
      = .error "IndexError" ∧
    (∀ appDC : Option (List AUnit), ∀ l : List String,
      (create_flux_equivalencies_list fU saU diu (some eqs) appDC).1 = .ok l →
        l = fluxListVal diu eqs) ∧
    (∀ appDC : Option (List AUnit), ∀ l : List String,
      (create_sb_equivalencies_list sU saU diu (some eqs) appDC).1 = .ok l →
        l = sbListVal diu eqs) := by
  have hgF : ¬(fU = atom .ct ∨ fU = [] ∨ saU = atom .pix ∨ saU = []) := by
    simp [hf1, hf2, hsa1, hsa2]
  have hgS : ¬(sU = atom .ct ∨ sU = [] ∨ saU = atom .pix ∨ saU = []) := by
    simp [hs1, hs2, hsa1, hsa2]
  refine ⟨?_, ?_, ?_, ?_, ?_, ?_, ?_, ?_, ?_⟩
  · unfold create_flux_equivalencies_list
    rw [if_neg hgF]
  · unfold create_flux_equivalencies_list
    rw [if_neg hgF]
  · unfold create_flux_equivalencies_list
    rw [if_neg hgF]
  · unfold create_flux_equivalencies_list
    rw [if_neg hgF]
  · unfold create_sb_equivalencies_list
    rw [if_neg hgS]
  · unfold create_sb_equivalencies_list
    rw [if_neg hgS]
  · unfold create_sb_equivalencies_list
    rw [if_neg hgS]
  · intro appDC l hl
    cases appDC with
    | none =>
      rw [create_flux_none hf1 hf2 hsa1 hsa2] at hl
      simp only [Except.ok.injEq] at hl
      exact hl.symm
    | some dc2 =>
      cases dc2 with
      | nil =>
        unfold create_flux_equivalencies_list at hl
        rw [if_neg hgF] at hl
        simp at hl
      | cons d2 t2 =>
        unfold create_flux_equivalencies_list at hl
        rw [if_neg hgF] at hl
        simp only [Except.ok.injEq] at hl
        exact hl.symm
  · intro appDC l hl
    cases appDC with
    | none =>
      rw [create_sb_none hs1 hs2 hsa1 hsa2] at hl
      simp only [Except.ok.injEq] at hl
      exact hl.symm
    | some dc2 =>
      cases dc2 with
      | nil =>
        unfold create_sb_equivalencies_list at hl
        rw [if_neg hgS] at hl
        simp at hl
      | cons d2 t2 =>
        unfold create_sb_equivalencies_list at hl
        rw [if_neg hgS] at hl
        simp only [Except.ok.injEq] at hl
        exact hl.symm

/-- Witness for C10 at concrete inputs: flux reference `Jy`,
surface-brightness reference `Jy / sr`, spectral axis `m`, data-collection
item unit `MJy`. -/
theorem claim_C10_builder_side_effects_witness :
    (create_flux_equivalencies_list (atom .Jy) (atom .m) none (some []) (some [])).1
      = .error "IndexError" ∧
    (create_flux_equivalencies_list (atom .Jy) (atom .m) none (some [])
      (some [atom .MJy])).2 = [debugLine (atom .Jy), debugLine (atom .MJy)] := by
  have h := claim_C10_builder_side_effects (atom .Jy) (uDiv (atom .Jy) srU) (atom .m)
    (atom .MJy) none [] []
    (by decide) (by decide) (by decide) (by decide) (by decide) (by decide)
  exact ⟨h.2.2.1, h.2.1⟩
